import Mathlib

/-!
Verification of the mmx container-parsing engine (src/common.py, src/source.py,
src/iff.py, src/container.py) against its natural-language specification.

The Python modules are shallowly embedded as executable Lean definitions:
byte sources become an explicit state record (`ByteSource`), Python
exceptions become an `Err` sum carried in `Except`/`Option` results, Python
ints are `Nat`/`Int`, and the `while` loops of the walkers are fuel-based
recursions whose fuel provably suffices for every real descriptor.
-/

/-- Python exception classes observed by the embedded code. `nonterm` is the
fuel-exhaustion marker standing for a Python loop that would never return
(only reachable for degenerate layouts whose identifier and size field widths
are both zero). -/
inductive Err where
  | eos                 -- EOSError (iff.py line 17, container.py line 53)
  | invalidContainer    -- InvalidContainerError (iff.py line 19)
  | typeError           -- TypeError (e.g. dataclass call missing required arguments)
  | valueError          -- ValueError (e.g. uuid.UUID with bytes_le of wrong length, tuple unpack mismatch)
  | unicodeDecodeError  -- UnicodeDecodeError (bytes.decode("ascii") on a byte above 0x7F)
  | fileNotFound        -- OSError/FileNotFoundError from open()
  | zeroDivision        -- ZeroDivisionError (modulo by a zero alignment)
  | nonterm
deriving DecidableEq, BEq

/-- The `Endian` literal type of src/common.py (`"little" | "big"`). -/
inductive Endian where
  | little
  | big
deriving DecidableEq, BEq

/-! Constants of src/common.py. -/

def FOURCC_ENCODING : String := "ascii"

def LATIN : String := "latin-1"

def IFF_ALIGNMENT : Nat := 2

def IFF_IDENTIFIER_LENGTH : Nat := 4

def IFF_SIZE_LENGTH : Nat := 4

def W64_ALIGNMENT : Nat := 8

def W64_OVERHEAD : Nat := 24

def W64_IDENTIFIER_LENGTH : Nat := 16

def W64_SIZE_LENGTH : Nat := 8

/-! Byte-level helpers shared by the embedded modules. -/

/-- `int.from_bytes(bs, byteorder="little")` on a byte list (head = least
significant byte). -/
def fromBytesLE : List Nat → Nat
  | [] => 0
  | b :: bs => b + 256 * fromBytesLE bs

/-- `int.from_bytes(bs, byteorder=endian)`. -/
def fromBytes : Endian → List Nat → Nat
  | .little, bs => fromBytesLE bs
  | .big, bs => fromBytesLE bs.reverse

/-- `bs.decode("latin-1")`: each byte becomes the character of the same code
point; total on byte values. -/
def latin1 (bs : List Nat) : String :=
  String.mk (bs.map Char.ofNat)

/-- `bs.decode("ascii")`: succeeds exactly when every byte is below 0x80,
otherwise raises UnicodeDecodeError. -/
def asciiDecode (bs : List Nat) : Except Err String :=
  if bs.all (fun b => b < 128) then .ok (latin1 bs) else .error .unicodeDecodeError

/-- Upper-case hexadecimal digit, modelling the net effect of
`str(uuid.UUID(...)).upper()` on each nibble. -/
def hexDigit (n : Nat) : Char :=
  Char.ofNat (if n < 10 then 48 + n else 55 + n)

/-- Two upper-case hex digits of one byte. -/
def byteHex (b : Nat) : List Char :=
  [hexDigit (b / 16 % 16), hexDigit (b % 16)]

/-- Upper-case hex rendering of a byte list. -/
def bytesHex (bs : List Nat) : List Char :=
  (bs.map byteHex).flatten

/-- `str(uuid.UUID(bytes_le=b)).upper()` for a 16-byte list `b`: the first
three GUID fields are stored little-endian in `bytes_le` order, so bytes
3..0, 5..4 and 7..6 are reversed; the canonical form is 8-4-4-4-12 hex
groups separated by hyphens. -/
def guidStr (b : List Nat) : String :=
  String.mk
    (bytesHex [b.getD 3 0, b.getD 2 0, b.getD 1 0, b.getD 0 0]
      ++ '-' :: bytesHex [b.getD 5 0, b.getD 4 0]
      ++ '-' :: bytesHex [b.getD 7 0, b.getD 6 0]
      ++ '-' :: bytesHex [b.getD 8 0, b.getD 9 0]
      ++ '-' :: bytesHex [b.getD 10 0, b.getD 11 0, b.getD 12 0,
                          b.getD 13 0, b.getD 14 0, b.getD 15 0])

/-! ## src/source.py

`BinarySource`, `ByteSource` and `FileSource` all delegate `read`, `seek`,
`tell`, `reset` and `read_at_offset` to an underlying seekable cursor over a
fixed byte string (a `BytesIO` buffer or an open file), so the three share
one observable state model, named `ByteSource` after the in-memory backend.
`MmapSource` keeps its own `_pos` and slices the map directly, so it is
embedded separately. -/

/-- Observable state of the cursor-backed sources (`BinarySource`,
`ByteSource`, `FileSource`): the fixed backing bytes and the cursor. -/
structure ByteSource where
  data : List Nat
  pos : Nat
deriving DecidableEq

/-- `read(size)` of the cursor-backed sources: a negative size reads to the
end of the buffer; otherwise up to `size` bytes from the cursor are returned
and the cursor advances by the number of bytes actually returned. -/
def ByteSource.read (s : ByteSource) (size : Int) : List Nat × ByteSource :=
  let avail := s.data.length - s.pos
  let count := if size < 0 then avail else min size.toNat avail
  ((s.data.drop s.pos).take count, ⟨s.data, s.pos + count⟩)

/-- `seek(offset, whence)`: absolute (`whence = 0`), relative to the cursor
(`whence = 1`) or relative to the end (`whence = 2`); the cursor may be
placed past the end of the data, after which reads return nothing. -/
def ByteSource.seek (s : ByteSource) (offset : Int) (whence : Nat) : ByteSource :=
  if whence = 0 then ⟨s.data, offset.toNat⟩
  else if whence = 1 then ⟨s.data, ((s.pos : Int) + offset).toNat⟩
  else if whence = 2 then ⟨s.data, ((s.data.length : Int) + offset).toNat⟩
  else s

/-- `tell()`. -/
def ByteSource.tell (s : ByteSource) : Nat := s.pos

/-- `reset()`: `seek(0)`. -/
def ByteSource.reset (s : ByteSource) : ByteSource := ⟨s.data, 0⟩

/-- `len(source)`: fixed total length probed at construction. -/
def ByteSource.len (s : ByteSource) : Nat := s.data.length

/-- `read_at_offset(offset, size)` of `BinarySource`/`ByteSource`/`FileSource`
(source.py lines 42-44, 66-68, 90-92): `self._source.seek(offset)` followed by
`self._source.read(size)` on the shared cursor — the cursor is not restored. -/
def ByteSource.read_at_offset (s : ByteSource) (offset : Nat) (size : Int) :
    List Nat × ByteSource :=
  (s.seek (offset : Int) 0).read size

/-- State of `MmapSource`: the mapped bytes and the private `_pos` cursor. -/
structure MmapSource where
  data : List Nat
  pos : Nat
deriving DecidableEq

/-- `MmapSource.read_at_offset` (source.py lines 127-128):
`self._map[offset:offset + size]`, a pure slice that never touches `_pos`. -/
def MmapSource.read_at_offset (m : MmapSource) (offset size : Nat) :
    List Nat × MmapSource :=
  ((m.data.drop offset).take size, m)

/-- `MmapSource.tell`. -/
def MmapSource.tell (m : MmapSource) : Nat := m.pos

/-- The heterogeneous inputs `source_normalize` accepts (source.py line 142):
an already-normalized source, an open `BufferedReader`/`BytesIO` stream, a
`bytes` value, a `str`/`Path`, or (`other`) any Python value outside those
types. -/
inductive RawSource where
  | readable (s : ByteSource)
  | stream (s : ByteSource)
  | bytes (b : List Nat)
  | path (p : String)
  | other
deriving DecidableEq

/-- The backend `source_normalize` selects. -/
inductive NormalizedSource where
  | passthrough (s : ByteSource)  -- an existing ReadableSource, returned as is
  | mmapS (p : String)            -- MmapSource(path)
  | binary (s : ByteSource)       -- BinarySource(stream)
  | byteS (b : List Nat)          -- ByteSource(bytes)
  | fileS (p : String)            -- FileSource(path)
deriving DecidableEq

/-- `source_normalize(raw_source, use_mmap)` (source.py lines 144-161).
`isFile` abstracts `Path(p).is_file()`; the mmap branch's `open()` raises an
I/O-level error (not ValueError) on a path that cannot be opened. The
isinstance chain is mirrored branch for branch; its order only matters for
path inputs because the accepted types are disjoint. -/
def source_normalize (isFile : String → Bool) (raw_source : RawSource)
    (use_mmap : Bool) : Except Err NormalizedSource :=
  match raw_source with
  | .readable s => .ok (.passthrough s)
  | .path p =>
      if use_mmap then
        if isFile p then .ok (.mmapS p) else .error .fileNotFound
      else if isFile p then .ok (.fileS p)
      else .error .valueError
  | .stream s => .ok (.binary s)
  | .bytes b => .ok (.byteS b)
  | .other => .error .valueError

/-! ## src/iff.py -/

namespace IffPy

/-- `CONTAINER_ENDIANNESS` (iff.py lines 12-15): master tag to
`(endianness, container family)`. -/
def CONTAINER_ENDIANNESS : List (String × (Endian × String)) :=
  [("FORM", (.big, "IFF")), ("RIFX", (.big, "RIFF")), ("FFIR", (.big, "RIFF")),
   ("RF64", (.little, "RF64")), ("riff", (.little, "W64")), ("RIFF", (.little, "RIFF"))]

/-- `Chunk` (iff.py lines 21-28). The source's `end` field is renamed
`endOffset` because `end` is a Lean keyword. -/
structure Chunk where
  identifier : String
  size : Nat
  payload : List Nat
  start : Nat
  endOffset : Nat
deriving DecidableEq

/-- `ContainerMetadata` (iff.py lines 30-36). `size` is an `Int` because
the W64 path subtracts the 24-byte overhead from the raw field with Python
integer arithmetic. -/
structure ContainerMetadata where
  master : String
  endian : Endian
  container_type : String
  form_type : String
  size : Int
deriving DecidableEq

/-- `ContainerLayout` (iff.py lines 38-46). -/
structure ContainerLayout where
  endian : Endian
  encoding : String
  identifier_length : Nat
  payload_size_length : Nat
  alignment : Nat
  overhead : Nat
  chunk_size_storage : List (String × Nat)
deriving DecidableEq

/-- `ContainerInfo` (iff.py lines 48-51). -/
structure ContainerInfo where
  metadata : ContainerMetadata
  layout : ContainerLayout
deriving DecidableEq

/-- The default `ContainerLayout(endian)` of iff.py: latin-1 text
identifiers, 4-byte fields, 2-byte alignment, no overhead, empty
extended-size map. -/
def defaultLayout (endian : Endian) : ContainerLayout :=
  ⟨endian, LATIN, IFF_IDENTIFIER_LENGTH, IFF_SIZE_LENGTH, IFF_ALIGNMENT, 0, []⟩

/-- `_parse_w64_header` (iff.py lines 54-63): reset to offset 0, read a
16-byte GUID master identifier (uppercase canonical string —
`uuid.UUID(bytes_le=...)` raises ValueError unless exactly 16 bytes were
read), an 8-byte size minus the fixed 24-byte `W64_OVERHEAD`, and a 16-byte
form type decoded latin-1; the emitted layout is
`ContainerLayout(endian, "", W64_IDENTIFIER_LENGTH, W64_SIZE_LENGTH,
IFF_ALIGNMENT, W64_OVERHEAD)` — note the source passes `IFF_ALIGNMENT`. -/
def parse_w64_header (source : ByteSource) (endian : Endian)
    (container_type : String) : Except Err (ContainerInfo × ByteSource) :=
  let s0 := source.reset
  let r1 := s0.read (W64_IDENTIFIER_LENGTH : Int)
  if r1.1.length = 16 then
    let master := guidStr r1.1
    let r2 := r1.2.read (W64_SIZE_LENGTH : Int)
    let size : Int := (fromBytes endian r2.1 : Int) - (W64_OVERHEAD : Int)
    let r3 := r2.2.read (W64_IDENTIFIER_LENGTH : Int)
    let form_type := latin1 r3.1
    .ok (⟨⟨master, endian, container_type, form_type, size⟩,
          ⟨endian, "", W64_IDENTIFIER_LENGTH, W64_SIZE_LENGTH, IFF_ALIGNMENT,
           W64_OVERHEAD, []⟩⟩, r3.2)
  else .error .valueError

/-- The 4-byte probe of `derive_container_info` (iff.py lines 75-77):
seek to `start`, read 4 bytes, decode latin-1. -/
def probeStr (source : ByteSource) (start : Nat) : String :=
  latin1 ((source.seek (start : Int) 0).read 4).1

/-- `derive_container_info` (iff.py lines 69-93): probe the master tag,
look it up in `CONTAINER_ENDIANNESS` (unknown probe raises
InvalidContainerError), dispatch the `"riff"` probe to the W64 parser and
the `"RF64"` probe to `_parse_rf64_header` — which executes
`ContainerInfo()` with both required dataclass fields missing and so raises
TypeError (iff.py lines 65-66) — and otherwise read a 4-byte size with the
resolved endianness and a 4-byte latin-1 form type. -/
def derive_container_info (source : ByteSource) (start : Nat) :
    Except Err (ContainerInfo × ByteSource) :=
  let s0 := source.seek (start : Int) 0
  let r1 := s0.read 4
  let master := latin1 r1.1
  match CONTAINER_ENDIANNESS.lookup master with
  | none => .error .invalidContainer
  | some (endian, container_type) =>
      if master = "riff" then parse_w64_header r1.2 endian container_type
      else if master = "RF64" then .error .typeError
      else
        let r2 := r1.2.read (IFF_SIZE_LENGTH : Int)
        let size : Int := (fromBytes endian r2.1 : Int)
        let r3 := r2.2.read (IFF_IDENTIFIER_LENGTH : Int)
        let form_type := latin1 r3.1
        .ok (⟨⟨master, endian, container_type, form_type, size⟩,
              defaultLayout endian⟩, r3.2)

/-- `read_chunk` (iff.py lines 96-119): capture the start offset, check room
for the identifier and size fields, read and decode the identifier (GUID
when `layout.encoding` is the empty string, latin-1 otherwise), read the raw
size field, check the payload fits (`offset + fields + raw_size − overhead`
against the total length, in Python integer arithmetic), read
`raw_size − overhead` payload bytes (a negative count makes `read` return
the rest of the buffer), and, when the alignment is nonzero, skip
`(alignment − raw_size % alignment) % alignment` padding bytes with a
relative seek. The returned chunk records the raw size and
`source.tell()` as its end. -/
def read_chunk (source : ByteSource) (layout : ContainerLayout) :
    Except Err (Chunk × ByteSource) :=
  let offset := source.tell
  if offset + layout.identifier_length + layout.payload_size_length > source.len then
    .error .eos
  else
    let r1 := source.read (layout.identifier_length : Int)
    let idres : Except Err String :=
      if layout.encoding = "" then
        if r1.1.length = 16 then .ok (guidStr r1.1) else .error .valueError
      else .ok (latin1 r1.1)
    match idres with
    | .error e => .error e
    | .ok identifier =>
        let r2 := r1.2.read (layout.payload_size_length : Int)
        let payload_size := fromBytes layout.endian r2.1
        if ((offset + layout.identifier_length + layout.payload_size_length
              + payload_size : Nat) : Int) - (layout.overhead : Int)
            > (source.len : Int) then
          .error .eos
        else
          let r3 := r2.2.read ((payload_size : Int) - (layout.overhead : Int))
          let s4 :=
            if layout.alignment = 0 then r3.2
            else
              let padding := (layout.alignment - payload_size % layout.alignment)
                % layout.alignment
              if padding = 0 then r3.2 else r3.2.seek (padding : Int) 1
          .ok (⟨identifier, payload_size, r3.1, offset, s4.tell⟩, s4)

/-- The loop body of `yield_chunks` (iff.py lines 121-129) as a fuel-based
recursion: while the identifier and size field widths still fit below
`eos`, read a chunk and yield it; an `EOSError` from `read_chunk` is
re-raised to the consumer (`except EOSError: raise`), so the outcome pairs
the chunks yielded so far with the propagated exception, if any. -/
def yield_chunks_loop : Nat → ByteSource → ContainerLayout → Nat →
    List Chunk × Option Err × ByteSource
  | 0, s, _, _ => ([], some .nonterm, s)
  | fuel + 1, s, layout, eos =>
      if layout.identifier_length + layout.payload_size_length + s.tell < eos then
        match read_chunk s layout with
        | .error e => ([], some e, s)
        | .ok (c, s') =>
            let rest := yield_chunks_loop fuel s' layout eos
            (c :: rest.1, rest.2.1, rest.2.2)
      else ([], none, s)

/-- `yield_chunks` (iff.py lines 121-129): `eos = len(source)` — the raw
source length, not the header-declared size. Returns the chunks the
generator yields and the exception the consumer observes, if any. -/
def yield_chunks (source : ByteSource) (layout : ContainerLayout) :
    List Chunk × Option Err :=
  let eos := source.len
  let r := yield_chunks_loop (source.len + 2) source layout eos
  (r.1, r.2.1)

end IffPy

/-! ## src/container.py -/

namespace ContainerPy

/-- `ContainerStructure` (container.py lines 14-23). -/
structure ContainerStructure where
  format : String
  endian : Endian
  identifier_length : Nat
  payload_size_length : Nat
  alignment : Nat
  overhead : Nat
  chunk_size_storage : Option (List (String × Nat))
deriving DecidableEq

/-- `IFF_STRUCTURE` (container.py line 26). -/
def IFF_STRUCTURE : ContainerStructure :=
  ⟨"IFF", .big, IFF_IDENTIFIER_LENGTH, IFF_SIZE_LENGTH, IFF_ALIGNMENT, 0, none⟩

/-- `RIFF_STRUCTURE` (container.py line 28). -/
def RIFF_STRUCTURE : ContainerStructure :=
  ⟨"RIFF", .little, IFF_IDENTIFIER_LENGTH, IFF_SIZE_LENGTH, IFF_ALIGNMENT, 0, none⟩

/-- `RIFX_STRUCTURE` (container.py line 30). -/
def RIFX_STRUCTURE : ContainerStructure :=
  ⟨"RIFX", .big, IFF_IDENTIFIER_LENGTH, IFF_SIZE_LENGTH, IFF_ALIGNMENT, 0, none⟩

/-- `RF64_STRUCTURE` (container.py line 32): like RIFF but with an (empty)
`chunk_size_storage` map for the `ds64` side-channel sizes. -/
def RF64_STRUCTURE : ContainerStructure :=
  ⟨"RF64", .little, IFF_IDENTIFIER_LENGTH, IFF_SIZE_LENGTH, IFF_ALIGNMENT, 0, some []⟩

/-- `W64_STRUCTURE` (container.py line 34): 16-byte GUID identifiers, 8-byte
size fields, 8-byte alignment, 24-byte overhead. -/
def W64_STRUCTURE : ContainerStructure :=
  ⟨"W64", .little, W64_IDENTIFIER_LENGTH, W64_SIZE_LENGTH, W64_ALIGNMENT,
   W64_OVERHEAD, none⟩

/-- `Chunk` (container.py lines 36-42): no end-offset field. `size` is an
`Int` because `read_size` subtracts the overhead with Python integer
arithmetic. -/
structure Chunk where
  identifier : String
  size : Int
  payload : List Nat
  start : Nat
deriving DecidableEq

/-- `ContainerInfo` (container.py lines 44-51): the result of `read_all` —
header fields, the chunk list and the structure. It carries no flag
recording whether the walk terminated cleanly or was truncated. -/
structure ContainerInfo where
  master : String
  eos : Int
  form : String
  chunks : List Chunk
  structure_ : ContainerStructure
deriving DecidableEq

/-- `GenericContainer.align_source` (container.py lines 77-81): compute
`(alignment − payload_size % alignment) % alignment` (Python `%` on a
possibly negative left operand with a positive modulus agrees with `Int`'s
`%` here; a zero alignment raises ZeroDivisionError) and seek forward when
the padding is nonzero. -/
def align_source (st : ContainerStructure) (payload_size : Int)
    (s : ByteSource) : Except Err ByteSource :=
  if st.alignment = 0 then .error .zeroDivision
  else
    let padding : Int := ((st.alignment : Int) - payload_size % (st.alignment : Int))
      % (st.alignment : Int)
    if padding = 0 then .ok s else .ok (s.seek padding 1)

/-- `GenericContainer.read_identifier`: bound in `__init__` (container.py
lines 65-68) to `read_guid` for the W64 format (16 bytes through
`uuid.UUID(bytes_le=...)`, uppercase; ValueError unless exactly 16 bytes)
and to `read_generic_identifier` (ascii decode) otherwise. -/
def read_identifier (st : ContainerStructure) (s : ByteSource) :
    Except Err (String × ByteSource) :=
  let r := s.read (st.identifier_length : Int)
  if st.format = "W64" then
    if r.1.length = 16 then .ok (guidStr r.1, r.2) else .error .valueError
  else
    match asciiDecode r.1 with
    | .ok str => .ok (str, r.2)
    | .error e => .error e

/-- `GenericContainer.read_size` (container.py lines 92-95): read the size
field and subtract the structure's overhead. -/
def read_size (st : ContainerStructure) (s : ByteSource) : Int × ByteSource :=
  let r := s.read (st.payload_size_length : Int)
  ((fromBytes st.endian r.1 : Int) - (st.overhead : Int), r.2)

/-- `GenericContainer.read_header`: bound in `__init__` (container.py lines
70-73) to `read_rf_header` for the RF64 format and to `read_generic_header`
otherwise. `read_rf_header` (lines 106-109) is an unimplemented stub that
returns the empty tuple `()` — modelled as `none`, since `()` has none of
the three annotated components — while `read_generic_header` (lines
101-104) reads master identifier, overhead-adjusted size and form type. -/
def read_header (st : ContainerStructure) (s : ByteSource) :
    Except Err (Option ((String × Int × String) × ByteSource)) :=
  if st.format = "RF64" then .ok none
  else
    match read_identifier st s with
    | .error e => .error e
    | .ok (master, s1) =>
        let r2 := read_size st s1
        match read_identifier st r2.2 with
        | .error e => .error e
        | .ok (form, s3) => .ok (some ((master, r2.1, form), s3))

/-- `GenericContainer.read_chunk` (container.py lines 122-130): capture the
start offset, `ensure_fields_room` (lines 111-115), read the identifier,
read the overhead-adjusted size, `ensure_payload_room` at the post-field
offset (lines 117-120, Python integer comparison), read that many payload
bytes (a negative count reads the rest of the buffer) and align for the
next read. The structure's `chunk_size_storage` is never consulted. -/
def read_chunk (st : ContainerStructure) (s : ByteSource) :
    Except Err (Chunk × ByteSource) :=
  let start_offset := s.tell
  if start_offset + st.identifier_length + st.payload_size_length > s.len then
    .error .eos
  else
    match read_identifier st s with
    | .error e => .error e
    | .ok (identifier, s1) =>
        let r2 := read_size st s1
        let payload_size := r2.1
        let post_field_offset := r2.2.tell
        if (post_field_offset : Int) + payload_size > (s.len : Int) then
          .error .eos
        else
          let r3 := r2.2.read payload_size
          match align_source st payload_size r3.2 with
          | .error e => .error e
          | .ok s4 => .ok (⟨identifier, payload_size, r3.1, start_offset⟩, s4)

/-- The `while self._source.tell() < eos` loop of `read_all` (container.py
lines 135-141) as a fuel-based recursion: `EOSError` from `read_chunk`
breaks the loop (`except EOSError: break`), every other exception
propagates, and each successful chunk is appended. -/
def read_all_loop : Nat → ContainerStructure → ByteSource → Int → List Chunk →
    Except Err (List Chunk × ByteSource)
  | 0, _, _, _, _ => .error .nonterm
  | fuel + 1, st, s, eos, acc =>
      if (s.tell : Int) < eos then
        match read_chunk st s with
        | .error e => if e = .eos then .ok (acc, s) else .error e
        | .ok (c, s') => read_all_loop fuel st s' eos (acc ++ [c])
      else .ok (acc, s)

/-- `GenericContainer.read_all` after construction (container.py lines
56-75 and 132-143): `__init__` resets the source; `read_all` reads the
header — unpacking `read_rf_header`'s empty tuple into three names raises
ValueError — then walks chunks while `tell() < eos`, the header-declared
size, and returns the `ContainerInfo` without any truncation flag. -/
def read_all (st : ContainerStructure) (source : ByteSource) :
    Except Err ContainerInfo :=
  let s0 := source.reset
  match read_header st s0 with
  | .error e => .error e
  | .ok none => .error .valueError
  | .ok (some ((master, eos, form), s1)) =>
      match read_all_loop (source.len + 2) st s1 eos [] with
      | .error e => .error e
      | .ok (chunks, _) => .ok ⟨master, eos, form, chunks, st⟩

end ContainerPy

/-! ## Concrete inputs used by the claim theorems -/

/-- The 40-byte W64 header: the `bytes_le` encoding of the riff master GUID
66666972-912E-11CF-A5D6-28DB04C10000 (whose first four bytes read "riff"),
an 8-byte little-endian raw size of 104, and 16 form-type bytes. -/
def w64HeaderBytes : List Nat :=
  [0x72, 0x69, 0x66, 0x66, 0x2E, 0x91, 0xCF, 0x11,
   0xA5, 0xD6, 0x28, 0xDB, 0x04, 0xC1, 0x00, 0x00] ++
  [104, 0, 0, 0, 0, 0, 0, 0] ++
  [119, 97, 118, 101, 119, 97, 118, 101, 119, 97, 118, 101, 119, 97, 118, 101]

/-- The spec's end-to-end scenario 1 source:
`b"RIFF" + u32_le(36) + b"WAVE" + b"fmt " + u32_le(4) + b"DATA"` (24 bytes). -/
def src24Bytes : List Nat :=
  [82, 73, 70, 70, 36, 0, 0, 0, 87, 65, 86, 69,
   102, 109, 116, 32, 4, 0, 0, 0, 68, 65, 84, 65]

/-- A truncated chunk stream: a `"fmt "` header claiming 100 payload bytes
with only 4 bytes behind it. -/
def tBytes : List Nat := [102, 109, 116, 32, 100, 0, 0, 0, 1, 2, 3, 4]

/-- One complete chunk (`"fmt "`, 2 payload bytes) followed by a `"junk"`
header claiming 99 payload bytes with only 2 bytes behind it. -/
def t2Bytes : List Nat :=
  [102, 109, 116, 32, 2, 0, 0, 0, 65, 66] ++
  [106, 117, 110, 107, 99, 0, 0, 0] ++ [0, 0]

/-- A RIFF container whose header declares 100 bytes but whose source holds
one complete chunk and then only 2 stray bytes. -/
def gtruncBytes : List Nat :=
  [82, 73, 70, 70, 100, 0, 0, 0, 87, 65, 86, 69] ++
  [102, 109, 116, 32, 2, 0, 0, 0, 65, 66] ++ [106, 117]

/-- A RIFF container declaring only 4 bytes (its form type), embedded in a
byte range that continues with one more well-formed chunk. -/
def esrcBytes : List Nat :=
  [82, 73, 70, 70, 4, 0, 0, 0, 87, 65, 86, 69] ++
  [102, 109, 116, 32, 2, 0, 0, 0, 65, 66]

/-- The layout `derive_container_info` emits for the W64 family (iff.py
line 63). -/
def w64IffLayout : IffPy.ContainerLayout :=
  ⟨.little, "", W64_IDENTIFIER_LENGTH, W64_SIZE_LENGTH, IFF_ALIGNMENT,
   W64_OVERHEAD, []⟩

/-- A W64-layout chunk whose raw declared size 10 is below the 24-byte
overhead, followed by 6 stray bytes (30 bytes total). -/
def c4Bytes : List Nat :=
  [0x72, 0x69, 0x66, 0x66, 0x2E, 0x91, 0xCF, 0x11,
   0xA5, 0xD6, 0x28, 0xDB, 0x04, 0xC1, 0x00, 0x00] ++
  [10, 0, 0, 0, 0, 0, 0, 0] ++ [1, 2, 3, 4, 5, 6]

/-- A RIFF-shaped structure whose `chunk_size_storage` maps `"fmt "` to an
externally declared size 2. -/
def fmtMapStructure : ContainerPy.ContainerStructure :=
  ⟨"RIFF", .little, 4, 4, 2, 0, some [("fmt ", 2)]⟩

/-- A single `"fmt "` chunk with raw size field 4 and payload `b"DATA"`. -/
def c6Bytes : List Nat := [102, 109, 116, 32, 4, 0, 0, 0, 68, 65, 84, 65]

/-- An RF64 source: `b"RF64" + u32_le(36) + b"WAVE"`. -/
def rf64Bytes : List Nat := [82, 70, 54, 52, 36, 0, 0, 0, 87, 65, 86, 69]

/-- `true` exactly on an `Except` value carrying `EOSError`. -/
def isEOSErr {α : Type} : Except Err α → Bool
  | .error e => e == .eos
  | .ok _ => false

deriving instance DecidableEq for Except

/-! ## Claim C1 -/

/-- Claim C1 (code bug): on a source probing lowercase "riff", header
classification does return 16-byte identifiers, 8-byte size fields, a
24-byte overhead, the master identifier as an uppercase canonical GUID
string and a declared size of raw − 24 — but the layout's alignment is
`IFF_ALIGNMENT = 2`, not the 8 the claim states (and not the
`W64_ALIGNMENT = 8` that container.py's parallel `W64_STRUCTURE` uses). -/
theorem c1_w64_header_eval :
    IffPy.derive_container_info ⟨w64HeaderBytes, 0⟩ 0 =
      .ok (⟨⟨"66666972-912E-11CF-A5D6-28DB04C10000", .little, "W64",
             "wavewavewavewave", 80⟩,
            ⟨.little, "", 16, 8, 2, 24, []⟩⟩, ⟨w64HeaderBytes, 40⟩)
    ∧ IFF_ALIGNMENT = 2 ∧ W64_ALIGNMENT = 8
    ∧ ContainerPy.W64_STRUCTURE.alignment = 8 := by
  decide

/-! ## Claim C2 -/

/-- Claim C2 (counterexample): on a truncated source the lazy walker
`yield_chunks` does NOT terminate silently — the `EOSError` raised by
`read_chunk` is re-raised to the consumer. -/
theorem c2_counterexample :
    IffPy.yield_chunks ⟨tBytes, 0⟩ (IffPy.defaultLayout .little) =
      ([], some .eos) := by
  decide

/-! ## Claim C5 -/

/-- Claim C5 (counterexample): on the scenario bytes the single chunk's end
offset is 24 (= 12 + 4 + 4 + 4 + 0), not the 20 the claim states. -/
theorem c5_counterexample :
    IffPy.derive_container_info ⟨src24Bytes, 0⟩ 0 =
      .ok (⟨⟨"RIFF", .little, "RIFF", "WAVE", 36⟩, IffPy.defaultLayout .little⟩,
           ⟨src24Bytes, 12⟩)
    ∧ IffPy.read_chunk ⟨src24Bytes, 12⟩ (IffPy.defaultLayout .little) =
        .ok (⟨"fmt ", 4, [68, 65, 84, 65], 12, 24⟩, ⟨src24Bytes, 24⟩)
    ∧ 20 < 24 := by
  decide

/-- Claim C5 (amended): header classification on the scenario bytes yields
family RIFF, endianness little, form WAVE, declared size 36, and the walk
from offset 12 yields exactly one chunk — identifier `"fmt "`, payload
`b"DATA"`, start 12 — whose end offset is 24. -/
theorem c5_amended_thm :
    IffPy.derive_container_info ⟨src24Bytes, 0⟩ 0 =
      .ok (⟨⟨"RIFF", .little, "RIFF", "WAVE", 36⟩, IffPy.defaultLayout .little⟩,
           ⟨src24Bytes, 12⟩)
    ∧ IffPy.yield_chunks ⟨src24Bytes, 12⟩ (IffPy.defaultLayout .little) =
        ([⟨"fmt ", 4, [68, 65, 84, 65], 12, 24⟩], none) := by
  decide

/-! ## Claim C8 -/

/-- Claim C8 (code bug): the RF64 paths do fail before returning usable
data, but not with an explicit not-implemented signal:
`_parse_rf64_header` crashes with TypeError (a `ContainerInfo()` dataclass
call missing both required arguments), while `read_rf_header` silently
returns the empty tuple — in violation of its own `Tuple[str, int, str]`
annotation — and `read_all` then crashes unpacking it (ValueError). -/
theorem c8_rf64_stub_eval :
    IffPy.derive_container_info ⟨rf64Bytes, 0⟩ 0 = .error .typeError
    ∧ ContainerPy.read_header ContainerPy.RF64_STRUCTURE ⟨rf64Bytes, 0⟩ = .ok none
    ∧ ContainerPy.read_all ContainerPy.RF64_STRUCTURE ⟨rf64Bytes, 0⟩ =
        .error .valueError := by
  decide

/-! ## Claim C6 -/

/-- Claim C6 (counterexample): a chunk whose identifier `"fmt "` has an
entry (2) in the structure's `chunk_size_storage` is still read with the
raw size field 4 — the external size is ignored. -/
theorem c6_counterexample :
    ContainerPy.read_chunk fmtMapStructure ⟨c6Bytes, 0⟩ =
      .ok (⟨"fmt ", 4, [68, 65, 84, 65], 0⟩, ⟨c6Bytes, 12⟩)
    ∧ fmtMapStructure.chunk_size_storage = some [("fmt ", 2)]
    ∧ (2 : Int) < 4 := by
  decide

/-! ## Claim C7 -/

/-- Claim C7 (counterexample): on the cursor-backed backends
(`BinarySource`/`ByteSource`/`FileSource`), `read_at_offset(4, 4)` from
cursor 0 returns the right bytes but leaves the cursor at 8, not 0. -/
theorem c7_counterexample :
    (ByteSource.read_at_offset ⟨[82, 73, 70, 70, 87, 65, 86, 69], 0⟩ 4 4).1 =
      [87, 65, 86, 69]
    ∧ ByteSource.tell ⟨[82, 73, 70, 70, 87, 65, 86, 69], 0⟩ = 0
    ∧ (ByteSource.read_at_offset ⟨[82, 73, 70, 70, 87, 65, 86, 69], 0⟩ 4 4).2.tell = 8
    ∧ 0 < 8 := by
  decide

/-! ## Claim C4 -/

/-- Claim C4 (counterexample): a produced W64-layout chunk with raw size 10
(below the 24-byte overhead) ends at offset 30 — reading the negative
payload count consumed the rest of the source — while the claim's formula
`start + identifier_width + size_field_width + payload_length + padding`
with `payload_length = 10 − 24` evaluates to 10. -/
theorem c4_counterexample :
    IffPy.read_chunk ⟨c4Bytes, 0⟩ w64IffLayout =
      .ok (⟨"66666972-912E-11CF-A5D6-28DB04C10000", 10, [1, 2, 3, 4, 5, 6], 0, 30⟩,
           ⟨c4Bytes, 30⟩)
    ∧ ((0 : Int) + 16 + 8 + ((10 : Int) - 24)
        + ((2 - ((10 : Int) - 24) % 2) % 2)) = 10
    ∧ (10 : Int) < 30 := by
  decide

/-! ## Claim C3 -/

/-- Claim C3 (counterexample): for a RIFF container declaring only 4 bytes
embedded in a 22-byte range, the lazy walker `yield_chunks` still produces
a chunk starting at offset 12 — past the declared end — because its bound
is `len(source)`, not the header's declared size. -/
theorem c3_counterexample :
    IffPy.derive_container_info ⟨esrcBytes, 0⟩ 0 =
      .ok (⟨⟨"RIFF", .little, "RIFF", "WAVE", 4⟩, IffPy.defaultLayout .little⟩,
           ⟨esrcBytes, 12⟩)
    ∧ IffPy.yield_chunks ⟨esrcBytes, 12⟩ (IffPy.defaultLayout .little) =
        ([⟨"fmt ", 2, [65, 66], 12, 22⟩], none)
    ∧ (4 : Int) < 12 := by
  decide

/-! ## Shared helper lemmas -/

/-- An `Except.error` carrying anything but `EOSError` is not an EOS
outcome. -/
lemma isEOSErr_not_eos {α : Type} {e : Err} (he : e ≠ Err.eos) :
    @isEOSErr α (Except.error e) = false := by
  cases e <;> first | rfl | exact absurd rfl he

/-- `read_identifier` only ever raises ValueError or UnicodeDecodeError,
never EOSError. -/
lemma read_identifier_not_eos (st : ContainerPy.ContainerStructure)
    (s : ByteSource) : isEOSErr (ContainerPy.read_identifier st s) = false := by
  simp only [ContainerPy.read_identifier, asciiDecode]
  split_ifs <;> rfl

/-- `read_header` never raises EOSError. -/
lemma read_header_not_eos (st : ContainerPy.ContainerStructure)
    (s : ByteSource) : isEOSErr (ContainerPy.read_header st s) = false := by
  simp only [ContainerPy.read_header]
  split_ifs with h
  · rfl
  · split
    next e heq =>
      have := read_identifier_not_eos st s
      rw [heq] at this
      exact this
    next master s1 heq =>
      split
      next e2 heq2 =>
        have := read_identifier_not_eos st (ContainerPy.read_size st s1).2
        rw [heq2] at this
        exact this
      next form s3 heq2 => rfl

/-- The `read_all` loop catches every EOSError from `read_chunk`, so its
own outcome is never an EOSError. -/
lemma read_all_loop_not_eos :
    ∀ (fuel : Nat) (st : ContainerPy.ContainerStructure) (s : ByteSource)
      (eos : Int) (acc : List ContainerPy.Chunk),
      isEOSErr (ContainerPy.read_all_loop fuel st s eos acc) = false := by
  intro fuel
  induction fuel with
  | zero => intro st s eos acc; rfl
  | succ n ih =>
      intro st s eos acc
      rw [ContainerPy.read_all_loop]
      split_ifs with h
      · cases hrc : ContainerPy.read_chunk st s with
        | error e =>
            by_cases he : e = Err.eos
            · subst he; rfl
            · simp only [if_neg he]
              exact isEOSErr_not_eos he
        | ok p => exact ih st p.2 eos (acc ++ [p.1])
      · rfl

/-- `read_all` never propagates an EOSError to the caller. -/
lemma read_all_not_eos (st : ContainerPy.ContainerStructure) (s : ByteSource) :
    isEOSErr (ContainerPy.read_all st s) = false := by
  simp only [ContainerPy.read_all]
  split
  next e heq =>
    have := read_header_not_eos st s.reset
    rw [heq] at this
    exact this
  next heq => rfl
  next master eos form s1 heq =>
    split
    next e heq2 =>
      have := read_all_loop_not_eos (s.len + 2) st s1 eos []
      rw [heq2] at this
      exact this
    next chunks s2 heq2 => rfl

/-- A chunk successfully produced by `GenericContainer.read_chunk` starts
at the cursor position it was read from. -/
lemma gc_read_chunk_start (st : ContainerPy.ContainerStructure) (s : ByteSource)
    (c : ContainerPy.Chunk) (s' : ByteSource)
    (h : ContainerPy.read_chunk st s = Except.ok (c, s')) : c.start = s.pos := by
  simp only [ContainerPy.read_chunk] at h
  split at h
  · exact absurd h (by simp)
  · split at h
    next e heq => exact absurd h (by simp)
    next identifier s1 heq =>
      split at h
      · exact absurd h (by simp)
      · split at h
        next e heq2 => exact absurd h (by simp)
        next s4 heq2 =>
          rw [Except.ok.injEq, Prod.mk.injEq] at h
          obtain ⟨hc, hs⟩ := h
          subst hc
          rfl

/-- A chunk successfully produced by iff.py's `read_chunk` starts at the
cursor position it was read from. -/
lemma iff_read_chunk_start (s : ByteSource) (layout : IffPy.ContainerLayout)
    (c : IffPy.Chunk) (s' : ByteSource)
    (h : IffPy.read_chunk s layout = Except.ok (c, s')) : c.start = s.pos := by
  simp only [IffPy.read_chunk] at h
  split at h
  · exact absurd h (by simp)
  · split at h
    next e heq => exact absurd h (by simp)
    next identifier heq =>
      split at h
      · exact absurd h (by simp)
      · rw [Except.ok.injEq, Prod.mk.injEq] at h
        obtain ⟨hc, hs⟩ := h
        subst hc
        rfl

/-- Loop invariant of `read_all`: every chunk in a successful outcome
either was already accumulated or starts strictly below the declared
end. -/
lemma read_all_loop_start_lt :
    ∀ (fuel : Nat) (st : ContainerPy.ContainerStructure) (s : ByteSource)
      (eos : Int) (acc : List ContainerPy.Chunk),
      (∀ c ∈ acc, (c.start : Int) < eos) →
      ∀ (cs : List ContainerPy.Chunk) (s' : ByteSource),
        ContainerPy.read_all_loop fuel st s eos acc = Except.ok (cs, s') →
        ∀ c ∈ cs, (c.start : Int) < eos := by
  intro fuel
  induction fuel with
  | zero =>
      intro st s eos acc hacc cs s' h
      exact absurd h (by simp [ContainerPy.read_all_loop])
  | succ n ih =>
      intro st s eos acc hacc cs s' h
      rw [ContainerPy.read_all_loop] at h
      split_ifs at h with hlt
      · split at h
        next e heq =>
          split_ifs at h
          · rw [Except.ok.injEq, Prod.mk.injEq] at h
            obtain ⟨hcs, _⟩ := h
            subst hcs
            exact hacc
        next c0 s1 heq =>
          refine ih st s1 eos (acc ++ [c0]) ?_ cs s' h
          intro c hc
          rcases List.mem_append.mp hc with hmem | hmem
          · exact hacc c hmem
          · rw [List.mem_singleton.mp hmem]
            have hst := gc_read_chunk_start st s c0 s1 heq
            rw [hst]
            exact hlt
      · rw [Except.ok.injEq, Prod.mk.injEq] at h
        obtain ⟨hcs, _⟩ := h
        subst hcs
        exact hacc

/-- Every chunk the lazy walker yields starts early enough that its
identifier and size fields fit below the loop bound. -/
lemma yield_chunks_loop_start_bound :
    ∀ (fuel : Nat) (s : ByteSource) (layout : IffPy.ContainerLayout) (eos : Nat),
      ∀ c ∈ (IffPy.yield_chunks_loop fuel s layout eos).1,
        layout.identifier_length + layout.payload_size_length + c.start < eos := by
  intro fuel
  induction fuel with
  | zero =>
      intro s layout eos c hc
      exact absurd hc (by simp [IffPy.yield_chunks_loop])
  | succ n ih =>
      intro s layout eos c hc
      rw [IffPy.yield_chunks_loop] at hc
      split_ifs at hc with hlt
      · split at hc
        next e heq => exact absurd hc (by simp)
        next c0 s1 heq =>
          simp only [List.mem_cons] at hc
          rcases hc with hmem | hmem
          · subst hmem
            have hst := iff_read_chunk_start s layout c s1 heq
            rw [hst]
            exact hlt
          · exact ih s1 layout eos c hmem
      · exact absurd hc (by simp)

/-- Shifting by a multiple of the alignment does not change the padding. -/
lemma pad_mod (a ov t : Nat) (hov : ov % a = 0) :
    (a - (ov + t) % a) % a = (a - t % a) % a := by
  obtain ⟨k, hk⟩ := Nat.dvd_of_mod_eq_zero hov
  subst hk
  rw [Nat.add_comm, Nat.add_mul_mod_self_left]

/-- A `read` of `n` bytes that fit entirely advances the cursor by
exactly `n`. -/
lemma read_snd_nat (s : ByteSource) (n : Nat) (hn : s.pos + n ≤ s.data.length) :
    (s.read (n : Int)).2 = ⟨s.data, s.pos + n⟩ := by
  have h0 : ¬((n : Int) < 0) := by omega
  simp only [ByteSource.read, h0, if_false, Int.toNat_natCast]
  congr 1
  omega

/-- A `read` of a nonnegative byte count that fits entirely advances the
cursor by exactly that count. -/
lemma read_snd_int (s : ByteSource) (k : Int) (h0 : 0 ≤ k)
    (hfit : s.pos + k.toNat ≤ s.data.length) :
    (s.read k).2 = ⟨s.data, s.pos + k.toNat⟩ := by
  have h1 : ¬(k < 0) := by omega
  simp only [ByteSource.read, h1, if_false]
  congr 1
  omega

/-- A relative seek forward adds the offset to the cursor. -/
lemma seek_rel_pos (s : ByteSource) (n : Nat) :
    s.seek (n : Int) 1 = ⟨s.data, s.pos + n⟩ := by
  simp only [ByteSource.seek]
  norm_num
  omega

/-- Claim C2 (amended): on EOS from the chunk reader, the eager `read_all`
walker stops and returns every previously produced chunk without
propagating the error — it never returns an EOS outcome — but the lazy
`yield_chunks` form re-raises the EOS error to the consumer after the
previously yielded chunks, and neither result records a clean/truncated
flag. -/
theorem c2_amended_thm :
    (∀ (st : ContainerPy.ContainerStructure) (s : ByteSource),
        isEOSErr (ContainerPy.read_all st s) = false)
    ∧ ContainerPy.read_all ContainerPy.RIFF_STRUCTURE ⟨gtruncBytes, 0⟩ =
        Except.ok ⟨"RIFF", 100, "WAVE", [⟨"fmt ", 2, [65, 66], 12⟩],
                   ContainerPy.RIFF_STRUCTURE⟩
    ∧ IffPy.yield_chunks ⟨t2Bytes, 0⟩ (IffPy.defaultLayout .little) =
        ([⟨"fmt ", 2, [65, 66], 0, 10⟩], some .eos) :=
  ⟨read_all_not_eos, by decide, by decide⟩

/-- Claim C3 (amended): the eager `read_all` walker is bounded by the
header-declared size — every chunk it returns starts strictly below the
declared end — while the lazy `yield_chunks` walker is bounded by the raw
source length instead: every chunk it yields starts where the identifier
and size fields still fit below `len(source)`. -/
theorem c3_amended_thm :
    (∀ (st : ContainerPy.ContainerStructure) (s : ByteSource)
        (info : ContainerPy.ContainerInfo),
        ContainerPy.read_all st s = Except.ok info →
        ∀ c ∈ info.chunks, (c.start : Int) < info.eos)
    ∧ (∀ (layout : IffPy.ContainerLayout) (s : ByteSource),
        ∀ c ∈ (IffPy.yield_chunks s layout).1,
          layout.identifier_length + layout.payload_size_length + c.start
            < s.len) := by
  constructor
  · intro st s info h
    simp only [ContainerPy.read_all] at h
    split at h
    next e heq => exact absurd h (by simp)
    next heq => exact absurd h (by simp)
    next master eos form s1 heq =>
      split at h
      next e heq2 => exact absurd h (by simp)
      next chunks s2 heq2 =>
        rw [Except.ok.injEq] at h
        subst h
        intro c hc
        exact read_all_loop_start_lt (s.len + 2) st s1 eos [] (by simp) chunks s2
          heq2 c hc
  · intro layout s c hc
    simp only [IffPy.yield_chunks] at hc
    exact yield_chunks_loop_start_bound (s.len + 2) s layout s.len c hc

/-- Claim C3 (witness): the amended bounds evaluated on the truncated
RIFF container and on the embedded container. -/
theorem c3_amended_witness :
    ((12 : Int) < 100) ∧ (4 + 4 + 12 < 22) :=
  ⟨c3_amended_thm.1 ContainerPy.RIFF_STRUCTURE ⟨gtruncBytes, 0⟩
      ⟨"RIFF", 100, "WAVE", [⟨"fmt ", 2, [65, 66], 12⟩],
       ContainerPy.RIFF_STRUCTURE⟩
      (by decide) ⟨"fmt ", 2, [65, 66], 12⟩ (by simp),
   c3_amended_thm.2 (IffPy.defaultLayout .little) ⟨esrcBytes, 12⟩
      ⟨"fmt ", 2, [65, 66], 12, 22⟩ (by decide)⟩

/-- Claim C4 (amended): for every successfully produced chunk whose raw
declared size is at least the descriptor's overhead, and whose layout has a
positive alignment dividing the overhead (true of every layout the header
classifier emits, where the overhead is 0 or 24 and the alignment 2),
`end_offset = start + identifier_width + size_field_width + payload_length
+ padding` with `payload_length = declared − overhead` and
`padding = (alignment − payload_length % alignment) % alignment`. -/
theorem c4_amended_thm (source : ByteSource) (layout : IffPy.ContainerLayout)
    (c : IffPy.Chunk) (s' : ByteSource)
    (ha : 0 < layout.alignment)
    (hov : layout.overhead % layout.alignment = 0)
    (hsz : layout.overhead ≤ c.size)
    (h : IffPy.read_chunk source layout = Except.ok (c, s')) :
    c.endOffset = c.start + layout.identifier_length + layout.payload_size_length
      + (c.size - layout.overhead)
      + ((layout.alignment - (c.size - layout.overhead) % layout.alignment)
          % layout.alignment) := by
  simp only [IffPy.read_chunk] at h
  split at h
  next hroom1 => exact absurd h (by simp)
  next hroom1 =>
    split at h
    next e heq => exact absurd h (by simp)
    next identifier heqid =>
      split at h
      next hroom2 => exact absurd h (by simp)
      next hroom2 =>
        rw [Except.ok.injEq, Prod.mk.injEq] at h
        obtain ⟨hc, hs⟩ := h
        subst hc
        clear hs heqid
        dsimp only [ByteSource.tell, ByteSource.len] at hroom1 hroom2 hsz ⊢
        have hr1 : (source.read (layout.identifier_length : Int)).2
            = ⟨source.data, source.pos + layout.identifier_length⟩ :=
          read_snd_nat source layout.identifier_length (by omega)
        rw [hr1] at hroom2 hsz ⊢
        generalize hFB : fromBytes layout.endian
            ((ByteSource.read ⟨source.data, source.pos + layout.identifier_length⟩
              (layout.payload_size_length : Int)).1) = ps at hroom2 hsz ⊢
        have hB : (ByteSource.read ⟨source.data,
              source.pos + layout.identifier_length⟩
            (layout.payload_size_length : Int)).2
            = ⟨source.data, source.pos + layout.identifier_length
                + layout.payload_size_length⟩ :=
          read_snd_nat _ layout.payload_size_length (by dsimp only; omega)
        rw [hB]
        have hknn : (0 : Int) ≤ (ps : Int) - (layout.overhead : Int) := by omega
        have hD : (ByteSource.read ⟨source.data,
              source.pos + layout.identifier_length
              + layout.payload_size_length⟩
              ((ps : Int) - (layout.overhead : Int))).2
            = ⟨source.data, source.pos + layout.identifier_length
                + layout.payload_size_length
                + ((ps : Int) - (layout.overhead : Int)).toNat⟩ :=
          read_snd_int _ _ hknn (by dsimp only; omega)
        rw [hD]
        rw [if_neg (by omega : ¬layout.alignment = 0)]
        have hpm := pad_mod layout.alignment layout.overhead
          (ps - layout.overhead) hov
        rw [show layout.overhead + (ps - layout.overhead) = ps by omega] at hpm
        by_cases hpad :
            (layout.alignment - ps % layout.alignment) % layout.alignment = 0
        · rw [if_pos hpad]
          rw [← hpm, hpad]
          dsimp only
          omega
        · rw [if_neg hpad]
          rw [seek_rel_pos]
          rw [← hpm]
          dsimp only
          omega

/-- Claim C4 (witness): the amended end-offset equation evaluated on the
scenario-1 chunk (start 12, 4-byte identifier and size fields, 4 payload
bytes, zero overhead and padding, end 24). -/
theorem c4_amended_witness :
    (24 : Nat) = 12 + 4 + 4 + (4 - 0) + ((2 - (4 - 0) % 2) % 2) :=
  c4_amended_thm ⟨src24Bytes, 12⟩ (IffPy.defaultLayout .little)
    ⟨"fmt ", 4, [68, 65, 84, 65], 12, 24⟩ ⟨src24Bytes, 24⟩
    (by decide) (by decide) (by decide) (by decide)

/-- Claim C6 (amended): both chunk readers are entirely independent of the
extended-size-storage map — replacing the map with any other value leaves
the result of a chunk read unchanged, so the external size is never used in
place of the raw field. -/
theorem c6_amended_thm :
    (∀ (st : ContainerPy.ContainerStructure) (s : ByteSource)
        (m : Option (List (String × Nat))),
        ContainerPy.read_chunk
          ⟨st.format, st.endian, st.identifier_length, st.payload_size_length,
           st.alignment, st.overhead, m⟩ s = ContainerPy.read_chunk st s)
    ∧ (∀ (layout : IffPy.ContainerLayout) (s : ByteSource)
        (m : List (String × Nat)),
        IffPy.read_chunk s
          ⟨layout.endian, layout.encoding, layout.identifier_length,
           layout.payload_size_length, layout.alignment, layout.overhead, m⟩
          = IffPy.read_chunk s layout) :=
  ⟨fun _ _ _ => rfl, fun _ _ _ => rfl⟩

/-- Claim C7 (amended): `read_at_offset` returns the bytes at the given
offset on every backend, but only the memory-mapped backend leaves the
cursor unchanged; the cursor-backed backends (buffered stream, in-memory
bytes, file handle) leave the cursor at the end of the region actually
read. -/
theorem c7_amended_thm :
    (∀ (m : MmapSource) (off n : Nat),
        (MmapSource.read_at_offset m off n).1 = (m.data.drop off).take n
        ∧ (MmapSource.read_at_offset m off n).2.tell = m.tell)
    ∧ (∀ (s : ByteSource) (off n : Nat),
        (ByteSource.read_at_offset s off (n : Int)).1 = (s.data.drop off).take n
        ∧ (ByteSource.read_at_offset s off (n : Int)).2.tell
            = max off (min (off + n) s.data.length)) := by
  constructor
  · intro m off n
    exact ⟨rfl, rfl⟩
  · intro s off n
    have h1 : ¬((n : Int) < 0) := by omega
    constructor
    · simp only [ByteSource.read_at_offset, ByteSource.seek, ByteSource.read,
        ByteSource.tell]
      simp [h1]
    · simp only [ByteSource.read_at_offset, ByteSource.seek, ByteSource.read,
        ByteSource.tell]
      simp [h1]
      omega

/-- Claim C9 (confirmed): header classification raises InvalidContainer
exactly when the 4-byte probe is not a key of `CONTAINER_ENDIANNESS`; when
it succeeds, the metadata's endianness and family are exactly the table
entry for the probe; and the table maps the six known master tags exactly
as the claim lists them. -/
theorem c9_classification :
    (∀ (s : ByteSource) (start : Nat),
        (IffPy.derive_container_info s start = Except.error Err.invalidContainer
          ↔ IffPy.CONTAINER_ENDIANNESS.lookup (IffPy.probeStr s start) = none))
    ∧ (∀ (s : ByteSource) (start : Nat) (info : IffPy.ContainerInfo)
        (s2 : ByteSource),
        IffPy.derive_container_info s start = Except.ok (info, s2) →
          IffPy.CONTAINER_ENDIANNESS.lookup (IffPy.probeStr s start)
            = some (info.metadata.endian, info.metadata.container_type))
    ∧ (IffPy.CONTAINER_ENDIANNESS.lookup "FORM" = some (.big, "IFF")
       ∧ IffPy.CONTAINER_ENDIANNESS.lookup "RIFX" = some (.big, "RIFF")
       ∧ IffPy.CONTAINER_ENDIANNESS.lookup "FFIR" = some (.big, "RIFF")
       ∧ IffPy.CONTAINER_ENDIANNESS.lookup "RF64" = some (.little, "RF64")
       ∧ IffPy.CONTAINER_ENDIANNESS.lookup "riff" = some (.little, "W64")
       ∧ IffPy.CONTAINER_ENDIANNESS.lookup "RIFF" = some (.little, "RIFF")) := by
  refine ⟨?_, ?_, by decide⟩
  · intro s start
    simp only [IffPy.derive_container_info, IffPy.probeStr]
    cases hl : IffPy.CONTAINER_ENDIANNESS.lookup
        (latin1 ((s.seek (start : Int) 0).read 4).1) with
    | none => simp [hl]
    | some p =>
        obtain ⟨e, ct⟩ := p
        simp only [hl]
        split_ifs with h1 h2
        · simp [IffPy.parse_w64_header]
          split_ifs <;> simp
        · simp
        · simp
  · intro s start info s2 h
    simp only [IffPy.derive_container_info] at h
    simp only [IffPy.probeStr]
    cases hl : IffPy.CONTAINER_ENDIANNESS.lookup
        (latin1 ((s.seek (start : Int) 0).read 4).1) with
    | none => rw [hl] at h; exact absurd h (by simp)
    | some p =>
        obtain ⟨e, ct⟩ := p
        rw [hl] at h
        simp only [] at h
        split_ifs at h with h1 h2
        · simp only [IffPy.parse_w64_header] at h
          split_ifs at h with hlen
          rw [Except.ok.injEq, Prod.mk.injEq] at h
          obtain ⟨hinfo, _⟩ := h
          subst hinfo
          rfl
        · rw [Except.ok.injEq, Prod.mk.injEq] at h
          obtain ⟨hinfo, _⟩ := h
          subst hinfo
          rfl

/-- Claim C9 (witness): the classification correspondence evaluated on the
scenario-1 source, whose probe "RIFF" resolves to little endianness and the
RIFF family. -/
theorem c9_classification_witness :
    IffPy.CONTAINER_ENDIANNESS.lookup (IffPy.probeStr ⟨src24Bytes, 0⟩ 0)
      = some (Endian.little, "RIFF") :=
  c9_classification.2.1 ⟨src24Bytes, 0⟩ 0
    ⟨⟨"RIFF", .little, "RIFF", "WAVE", 36⟩, IffPy.defaultLayout .little⟩
    ⟨src24Bytes, 12⟩ (by decide)

/-- Claim C10 (confirmed): with the mmap opt-in off, `source_normalize`
raises ValueError exactly on the inputs outside the four accepted
categories — any value of an unexpected type, or a str/Path that does not
name an existing regular file. -/
theorem c10_source_normalize_valueerror :
    ∀ (isFile : String → Bool) (raw : RawSource),
      source_normalize isFile raw false = Except.error Err.valueError
        ↔ (raw = RawSource.other
            ∨ ∃ p, raw = RawSource.path p ∧ isFile p = false) := by
  intro isFile raw
  cases raw with
  | readable s => simp [source_normalize]
  | stream s => simp [source_normalize]
  | bytes b => simp [source_normalize]
  | path p =>
      by_cases hf : isFile p
      · simp [source_normalize, hf]
      · simp [source_normalize, hf]
  | other => simp [source_normalize]
